import Mathlib

/-!
Shallow embedding of the shiny platform-driver shims
(`shiny/driver/gldriver/x11.c` and `shiny/driver/windriver/*.c`)
and proofs about their window lifecycle, event translation, driver
start-up error reporting and the two Windows GDI fill primitives.

Machine integers are modelled as `Nat`/`Int`; byte extraction uses
explicit shifts and masks exactly as in the C source.  Native calls
performed by the shims are reified as traces (lists of call records), so
that statements such as "no map call is issued" are equations on traces.
-/

namespace ShinyDriver

/-! ### X11 backend: `shiny/driver/gldriver/x11.c` -/

/-- X11 `event_mask` bits used by `doNewWindow` (values from `X.h`). -/
def ButtonPressMask : Nat := 4

def ButtonReleaseMask : Nat := 8

def PointerMotionMask : Nat := 64

def ButtonMotionMask : Nat := 8192

def ExposureMask : Nat := 32768

def StructureNotifyMask : Nat := 131072

/-- The event mask `doNewWindow` passes to `XCreateWindow`. -/
def newWindowEventMask : Nat :=
  ButtonPressMask |||
  ButtonReleaseMask |||
  PointerMotionMask |||
  ButtonMotionMask |||
  ExposureMask |||
  StructureNotifyMask

/-- Native X11/EGL calls issued by the window-lifecycle entry points of
`x11.c`, reified as trace records.  `xCreateWindow` keeps the geometry
and mask arguments of the C call; property-setting calls keep the
arguments the claims are about. -/
inductive XCall where
  | xCreateWindow (parent : Nat) (x y : Int) (width height : Int)
      (borderWidth : Int) (eventMask : Nat)
  | xSetNormalHints (win : Nat) (width height : Int)
  | xSetStandardProperties (win : Nat)
  | xMapWindow (win : Nat)
  | eglCreateWindowSurfaceCall (win : Nat)
deriving DecidableEq

/-- `doNewWindow(width, height)` from `x11.c`: `XCreateWindow` at
position (0,0) with the requested width/height and the event mask,
then `XSetNormalHints` with the same size (`USSize`) and
`XSetStandardProperties`.  `rootWin` is the global `x_root` and `win`
the window id returned by the server.  No map call is issued. -/
def doNewWindowTrace (rootWin : Nat) (width height : Int) (win : Nat) : List XCall :=
  [ XCall.xCreateWindow rootWin 0 0 width height 0 newWindowEventMask,
    XCall.xSetNormalHints win width height,
    XCall.xSetStandardProperties win ]

/-- `doShowWindow(id)` from `x11.c`: `XMapWindow` then
`eglCreateWindowSurface` — on every call, with no guard against the
window already being shown. -/
def doShowWindowTrace (id : Nat) : List XCall :=
  [ XCall.xMapWindow id, XCall.eglCreateWindowSurfaceCall id ]

/-- The trace of `n` successive `doShowWindow(id)` calls. -/
def showTimesTrace (id : Nat) (n : Nat) : List XCall :=
  (List.replicate n (doShowWindowTrace id)).flatten

/-- Number of `XMapWindow` calls in a trace. -/
def countMapCalls (t : List XCall) : Nat :=
  t.countP fun c =>
    match c with
    | XCall.xMapWindow _ => true
    | _ => false

/-- Number of `eglCreateWindowSurface` calls in a trace. -/
def countSurfaceCalls (t : List XCall) : Nat :=
  t.countP fun c =>
    match c with
    | XCall.eglCreateWindowSurfaceCall _ => true
    | _ => false

/-! ### X11 event processing (`processEvents` in `x11.c`) -/

/-- An `XEvent` as read by the `switch (ev.type)` in `processEvents`.
`other` stands for any event type the switch has no case for. -/
inductive XEvent where
  | buttonPress (window : Nat) (x y : Int) (state button : Nat)
  | buttonRelease (window : Nat) (x y : Int) (state button : Nat)
  | motionNotify (window : Nat) (x y : Int) (state : Nat)
  | expose (window : Nat) (count : Nat)
  | configureNotify (window : Nat) (width height : Int)
  | other (ty : Nat)
deriving DecidableEq

/-- Host-runtime callbacks issued by `processEvents`.  The last
argument of `onMouse` is the direction: 1 for press, 2 for release,
0 for motion. -/
inductive Callback where
  | onMouse (window : Nat) (x y : Int) (state button : Nat) (dir : Nat)
  | onExpose (window : Nat)
  | onResize (window : Nat) (width height : Int)
deriving DecidableEq

/-- The body of the `switch` in `processEvents`: the host callbacks one
event produces.  `Expose` only calls `onExpose` when `count == 0`;
event types outside the switch produce nothing. -/
def translateEvent : XEvent → List Callback
  | XEvent.buttonPress w x y s b => [Callback.onMouse w x y s b 1]
  | XEvent.buttonRelease w x y s b => [Callback.onMouse w x y s b 2]
  | XEvent.motionNotify w x y s => [Callback.onMouse w x y s 0 0]
  | XEvent.expose w c => if c == 0 then [Callback.onExpose w] else []
  | XEvent.configureNotify w wd ht => [Callback.onResize w wd ht]
  | XEvent.other _ => []

/-- `processEvents` from `x11.c`: `while (XPending(x_dpy))` pop the next
pending event and run the switch on it.  The pending queue is the input
list; the function returns once the queue is empty. -/
def processEvents : List XEvent → List Callback
  | [] => []
  | ev :: rest => translateEvent ev ++ processEvents rest

/-- An X11 expose burst on window `w`: a nonempty run of `Expose`
events with strictly decreasing `count` ending at `count = 0`. -/
def IsExposeBurst (counts : List Nat) : Prop :=
  counts ≠ [] ∧ counts.Chain' (fun a b => b < a) ∧ counts.getLast? = some 0

instance (counts : List Nat) : Decidable (IsExposeBurst counts) :=
  decidable_of_iff
    (counts ≠ [] ∧ counts.Chain' (fun a b => b < a) ∧ counts.getLast? = some 0)
    Iff.rfl

/-! ### Windows backend: `shiny/driver/windriver` -/

/-- `CW_USEDEFAULT` (`(int)0x80000000`), the "let the system choose"
sentinel `createWindow` passes for x, y, width and height. -/
def CW_USEDEFAULT : Int := -2147483648

/-- `WS_OVERLAPPEDWINDOW`. -/
def WS_OVERLAPPEDWINDOW : Nat := 0x00CF0000

/-- `SW_SHOWDEFAULT`, the show command `createWindow` uses. -/
def SW_SHOWDEFAULT : Int := 10

/-- `SWP_NOSIZE` bit of `WINDOWPOS.flags`. -/
def SWP_NOSIZE : Nat := 0x0001

/-- Native Win32 calls issued by `createWindow` in `window.c`, reified
as trace records.  `createWindowExW` keeps the style and geometry
arguments (the class/title strings and the `HWND`/`HINSTANCE` handle
arguments are dropped from the record); `showWindow` keeps `nCmdShow`. -/
inductive GdiCall where
  | createWindowExW (dwExStyle : Nat) (style : Nat) (x y nWidth nHeight : Int)
  | showWindow (nCmdShow : Int)
deriving DecidableEq

/-- `createWindow` from `window.c`: one `CreateWindowExW` with
`WS_OVERLAPPEDWINDOW` style and `CW_USEDEFAULT` position *and size*
(the function takes no width/height at all); if that call succeeds
(`createOk`), `ShowWindow(hwnd, SW_SHOWDEFAULT)` is issued immediately
and the function returns success. -/
def createWindow (createOk : Bool) : List GdiCall × Bool :=
  let calls := [GdiCall.createWindowExW 0 WS_OVERLAPPEDWINDOW
    CW_USEDEFAULT CW_USEDEFAULT CW_USEDEFAULT CW_USEDEFAULT]
  if createOk then (calls ++ [GdiCall.showWindow SW_SHOWDEFAULT], true)
  else (calls, false)

/-- Number of `ShowWindow` calls in a Win32 trace. -/
def countShowCalls (t : List GdiCall) : Nat :=
  t.countP fun c =>
    match c with
    | GdiCall.showWindow _ => true
    | _ => false

/-- Win32 `RECT`. -/
structure RECT where
  left : Int
  top : Int
  right : Int
  bottom : Int
deriving DecidableEq

/-- Sign extension of a 16-bit field, as performed by `GET_X_LPARAM` /
`GET_Y_LPARAM` on the low/high words of `lParam`. -/
def signExtend16 (v : Nat) : Int :=
  if v % 65536 < 32768 then ((v % 65536 : Nat) : Int)
  else ((v % 65536 : Nat) : Int) - 65536

/-- `GET_X_LPARAM`: sign-extended low word of `lParam`. -/
def GET_X_LPARAM (lParam : Nat) : Int := signExtend16 (lParam &&& 0xFFFF)

/-- `GET_Y_LPARAM`: sign-extended high word of `lParam`. -/
def GET_Y_LPARAM (lParam : Nat) : Int := signExtend16 ((lParam >>> 16) &&& 0xFFFF)

/-- A message dispatched to `windowWndProc`, with the payload each
`case` of the `switch` reads out of `wParam`/`lParam`:
`wmWindowPosChanged` carries the `WINDOWPOS.flags` read through
`lParam`, the seven mouse messages carry their numeric `uMsg` and raw
`lParam`, the two fill messages carry the `COLORREF` in `wParam` and
the `RECT` pointed to by `lParam`.  `otherMsg` is any other message. -/
inductive WinMsg where
  | wmPaint
  | wmWindowPosChanged (wpFlags : Nat)
  | wmMouse (uMsg : Nat) (lParam : Nat)
  | wmKey (uMsg : Nat)
  | msgFillSrcMsg (color : Nat) (r : RECT)
  | msgFillOverMsg (color : Nat) (r : RECT)
  | otherMsg (uMsg : Nat)
deriving DecidableEq

/-- Calls out of `windowWndProc` into the Go host or into `windraw.c`. -/
inductive HostCall where
  | handlePaint (hwnd : Nat)
  | sendSizeEvent (hwnd : Nat) (r : RECT)
  | sendMouseEvent (hwnd : Nat) (uMsg : Nat) (x y : Int)
  | fillSrcOnDC (hwnd : Nat) (r : RECT) (color : Nat)
  | fillOverOnDC (hwnd : Nat) (r : RECT) (color : Nat)
deriving DecidableEq

/-- Per-window environment of `windowWndProc`: what `GetClientRect`
returns for a given `HWND` (the success path; the failure path in the
source is an empty `TODO` and falls through to sending the event). -/
structure WndEnv where
  clientRect : Nat → RECT

/-- `windowWndProc` from `window.c`.  Result: the calls issued and
whether the branch returned `0` directly (`true`) or fell through to
`DefWindowProcW` (`false`).  `WM_PAINT` calls `handlePaint` and then
defers to `DefWindowProc` for validation; `WM_WINDOWPOSCHANGED` ignores
the message when `SWP_NOSIZE` is set and otherwise fetches the client
rectangle and sends exactly one size event; the mouse cases send one
mouse event with sign-extended coordinates; the key cases are stubbed;
the fill messages run the fill on the window's DC. -/
def windowWndProc (env : WndEnv) (hwnd : Nat) : WinMsg → List HostCall × Bool
  | WinMsg.wmPaint => ([HostCall.handlePaint hwnd], false)
  | WinMsg.wmWindowPosChanged wpFlags =>
      if wpFlags &&& SWP_NOSIZE != 0 then ([], false)
      else ([HostCall.sendSizeEvent hwnd (env.clientRect hwnd)], true)
  | WinMsg.wmMouse uMsg lParam =>
      ([HostCall.sendMouseEvent hwnd uMsg (GET_X_LPARAM lParam) (GET_Y_LPARAM lParam)], true)
  | WinMsg.wmKey _ => ([], false)
  | WinMsg.msgFillSrcMsg color r => ([HostCall.fillSrcOnDC hwnd r color], false)
  | WinMsg.msgFillOverMsg color r => ([HostCall.fillOverOnDC hwnd r color], false)
  | WinMsg.otherMsg _ => ([], false)

/-- The size events among a list of host calls. -/
def sizeEventsOf (t : List HostCall) : List HostCall :=
  t.filter fun c =>
    match c with
    | HostCall.sendSizeEvent _ _ => true
    | _ => false

/-! ### Drawing primitives: `shiny/driver/windriver/windraw.c`

The destination (the window's device context) is modelled as a function
from integer pixel coordinates to an 8-bit-per-channel RGB pixel — the
observable colour on screen.  `fillSrc` models `CreateSolidBrush` +
`FillRect`; `fillOver` models the 1×1 pre-multiplied-ARGB DIB section
stretched over the rectangle by `AlphaBlend` with
`SourceConstantAlpha = 255` and `AC_SRC_ALPHA` (per-pixel,
pre-multiplied), whose documented per-channel formula is
`dst = src + dst * (255 - srcAlpha) / 255`. -/

/-- An observable destination pixel: red, green, blue channels. -/
structure Pixel where
  red : Nat
  green : Nat
  blue : Nat
deriving DecidableEq

/-- The destination surface addressed by a device context. -/
def Screen : Type := Int × Int → Pixel

/-- Pixel (x, y) lies inside `RECT` `r` (GDI fills the half-open box
`[left, right) × [top, bottom)`). -/
def inRect (r : RECT) (x y : Int) : Bool :=
  decide (r.left ≤ x) && decide (x < r.right) &&
  decide (r.top ≤ y) && decide (y < r.bottom)

/-- The Windows `RGB(r, g, b)` macro: a `COLORREF` with red in the low
byte, `0x00BBGGRR`. -/
def RGB (r g b : Nat) : Nat := r ||| (g <<< 8) ||| (b <<< 16)

/-- The conversion at the top of `fillSrc`:
`RGB((color >> 16) & 0xFF, (color >> 8) & 0xFF, color & 0xFF)` —
`COLORREF` is `0x00BBGGRR`, the input is `0xAARRGGBB`. -/
def colorrefOfARGB (color : Nat) : Nat :=
  RGB ((color >>> 16) &&& 0xFF) ((color >>> 8) &&& 0xFF) (color &&& 0xFF)

/-- The pixel a GDI solid brush of the given `COLORREF` paints:
red is the low byte of the `COLORREF`, blue the third byte. -/
def pixelOfColorref (colorref : Nat) : Pixel :=
  { red := colorref &&& 0xFF,
    green := (colorref >>> 8) &&& 0xFF,
    blue := (colorref >>> 16) &&& 0xFF }

/-- `fillSrc(dc, r, color)` from `windraw.c`: drop the alpha byte of
the `0xAARRGGBB` input, build the `0x00BBGGRR` `COLORREF`, and
`FillRect` the rectangle with a solid brush of that colour. -/
def fillSrc (screen : Screen) (r : RECT) (color : Nat) : Screen :=
  fun p =>
    if inRect r p.1 p.2 then pixelOfColorref (colorrefOfARGB color) else screen p

/-- One channel of `AlphaBlend` under `AC_SRC_OVER` with per-pixel
pre-multiplied alpha and `SourceConstantAlpha = 255`:
`dst = src + dst * (255 - srcAlpha) / 255`, saturated at 255. -/
def alphaBlendChannel (s d a : Nat) : Nat :=
  min 255 (s + d * (255 - a) / 255)

/-- `AlphaBlend` applied to one destination pixel, with the 32-bit
pre-multiplied source pixel `src` laid out `0xAARRGGBB`. -/
def alphaBlendPixel (src : Nat) (dst : Pixel) : Pixel :=
  { red := alphaBlendChannel ((src >>> 16) &&& 0xFF) dst.red ((src >>> 24) &&& 0xFF),
    green := alphaBlendChannel ((src >>> 8) &&& 0xFF) dst.green ((src >>> 24) &&& 0xFF),
    blue := alphaBlendChannel (src &&& 0xFF) dst.blue ((src >>> 24) &&& 0xFF) }

/-- `blend(dc, bitmap, dr, 1, 1)` from `windraw.c`: `AlphaBlend`
stretches the 1×1 source bitmap (single pixel `bitmapPixel`) over the
destination rectangle, blending it onto every destination pixel inside;
pixels outside `dr` are untouched. -/
def blend (screen : Screen) (bitmapPixel : Nat) (dr : RECT) : Screen :=
  fun p =>
    if inRect dr p.1 p.2 then alphaBlendPixel bitmapPixel (screen p) else screen p

/-- `fillOver(dc, r, color)` from `windraw.c`: make a 1×1 32-bit
top-down DIB section, store the raw pre-multiplied `0xAARRGGBB` colour
in its single pixel, and `blend` it over `r`. -/
def fillOver (screen : Screen) (r : RECT) (color : Nat) : Screen :=
  blend screen color r

/-! ### X11 driver start-up: `startDriver` in `x11.c` -/

/-- The nine checked sub-steps of `startDriver`, in source order.  Each
constructor stands for the step whose failure `startDriver` reports on
stderr before `exit(1)`: the report strings are `"XOpenDisplay failed"`,
`"eglGetDisplay failed: %s"`, `"eglInitialize failed: %s"`,
`"eglBindAPI failed: %s"`, `"eglChooseConfig failed: %s"`,
`"eglGetConfigAttrib failed: %s"`, `"XGetVisualInfo failed"`,
`"XCreateColormap failed"`, `"eglCreateContext failed: %s"`. -/
inductive StartStep where
  | stepXOpenDisplay
  | stepEglGetDisplay
  | stepEglInit
  | stepEglBindAPI
  | stepEglChooseConfig
  | stepEglGetConfigAttrib
  | stepXGetVisualInfo
  | stepXCreateColormap
  | stepEglCreateContext
deriving DecidableEq

/-- Which of the nine sub-steps succeed in a given run environment
(whether each native call returns a usable / non-zero result). -/
structure StartEnv where
  xOpenDisplayOk : Bool
  eglGetDisplayOk : Bool
  eglInitOk : Bool
  eglBindAPIOk : Bool
  eglChooseConfigOk : Bool
  eglGetConfigAttribOk : Bool
  xGetVisualInfoOk : Bool
  xCreateColormapOk : Bool
  eglCreateContextOk : Bool

/-- Outcome of `startDriver`: either it runs to completion with no
error report, or it prints which sub-step failed and exits — the
`fatal` payload is the step named in the stderr report. -/
inductive StartResult where
  | fatal (step : StartStep)
  | ok
deriving DecidableEq

/-- `startDriver` from `x11.c`: run the sub-steps in order; at the
first one that fails, report it and exit (`fatal` with that step);
if all succeed, return normally with no report. -/
def startDriver (env : StartEnv) : StartResult :=
  if !env.xOpenDisplayOk then StartResult.fatal StartStep.stepXOpenDisplay
  else if !env.eglGetDisplayOk then StartResult.fatal StartStep.stepEglGetDisplay
  else if !env.eglInitOk then StartResult.fatal StartStep.stepEglInit
  else if !env.eglBindAPIOk then StartResult.fatal StartStep.stepEglBindAPI
  else if !env.eglChooseConfigOk then StartResult.fatal StartStep.stepEglChooseConfig
  else if !env.eglGetConfigAttribOk then StartResult.fatal StartStep.stepEglGetConfigAttrib
  else if !env.xGetVisualInfoOk then StartResult.fatal StartStep.stepXGetVisualInfo
  else if !env.xCreateColormapOk then StartResult.fatal StartStep.stepXCreateColormap
  else if !env.eglCreateContextOk then StartResult.fatal StartStep.stepEglCreateContext
  else StartResult.ok

/-- All nine sub-steps succeed. -/
def allStepsOk (env : StartEnv) : Bool :=
  env.xOpenDisplayOk && env.eglGetDisplayOk && env.eglInitOk &&
  env.eglBindAPIOk && env.eglChooseConfigOk && env.eglGetConfigAttribOk &&
  env.xGetVisualInfoOk && env.xCreateColormapOk && env.eglCreateContextOk

/-! ### Concrete fixtures used to instantiate the theorems -/

/-- A window-procedure environment whose client rectangle is 640×480. -/
def wndEnv0 : WndEnv := ⟨fun _ => ⟨0, 0, 640, 480⟩⟩

/-- An all-black destination surface. -/
def fillScreen0 : Screen := fun _ => ⟨0, 0, 0⟩

/-- A destination surface holding a fixed non-black pixel. -/
def fillScreenC : Screen := fun _ => ⟨7, 8, 9⟩

/-- The 2×2 rectangle at the origin. -/
def fillRect2 : RECT := ⟨0, 0, 2, 2⟩

/-- A start environment where every sub-step succeeds. -/
def envAllOk : StartEnv :=
  ⟨true, true, true, true, true, true, true, true, true⟩

/-- A start environment where `eglBindAPI` fails and everything else
succeeds. -/
def envBindFail : StartEnv :=
  ⟨true, true, true, false, true, true, true, true, true⟩

end ShinyDriver

open ShinyDriver

/-! ### Shared helper lemmas -/

theorem and255_eq_mod (n : Nat) : n &&& 255 = n % 256 := by
  have h := Nat.and_pow_two_sub_one_eq_mod n 8
  norm_num at h
  exact h

theorem shr_and255 (n k : Nat) : (n >>> k) &&& 255 = n / 2 ^ k % 256 := by
  rw [Nat.shiftRight_eq_div_pow, and255_eq_mod]

theorem lor_shl_add (x y k : Nat) (hx : x < 2 ^ k) : x ||| (y <<< k) = y * 2 ^ k + x := by
  rw [Nat.shiftLeft_eq, Nat.lor_comm, mul_comm]
  exact (Nat.mul_add_lt_is_or hx y).symm

theorem RGB_eq_arith (r g b : Nat) (hr : r < 256) (hg : g < 256) :
    RGB r g b = b * 65536 + g * 256 + r := by
  unfold RGB
  rw [lor_shl_add r g 8 (by norm_num; omega)]
  rw [lor_shl_add _ b 16 (by norm_num; omega)]
  norm_num
  ring

theorem colorref_arith (c : Nat) :
    colorrefOfARGB c = (c % 256) * 65536 + (c / 256 % 256) * 256 + (c / 65536 % 256) := by
  unfold colorrefOfARGB
  rw [shr_and255, shr_and255, and255_eq_mod]
  rw [RGB_eq_arith _ _ _ (Nat.mod_lt _ (by norm_num)) (Nat.mod_lt _ (by norm_num))]
  norm_num

theorem pixelOf_colorref_arith (r g b : Nat) (hr : r < 256) (hg : g < 256) (hb : b < 256) :
    pixelOfColorref (b * 65536 + g * 256 + r) = ⟨r, g, b⟩ := by
  unfold pixelOfColorref
  rw [and255_eq_mod, shr_and255, shr_and255]
  simp only [Pixel.mk.injEq]
  refine ⟨by omega, by norm_num; omega, by norm_num; omega⟩

theorem pixelOf_colorrefOfARGB (c : Nat) :
    pixelOfColorref (colorrefOfARGB c) = ⟨c / 65536 % 256, c / 256 % 256, c % 256⟩ := by
  rw [colorref_arith,
    pixelOf_colorref_arith _ _ _ (Nat.mod_lt _ (by norm_num)) (Nat.mod_lt _ (by norm_num))
      (Nat.mod_lt _ (by norm_num))]

theorem alpha255_channel (s d : Nat) (hs : s ≤ 255) : alphaBlendChannel s d 255 = s := by
  unfold alphaBlendChannel
  norm_num
  omega

/-! ### C1: requested size vs. native window-creation call -/

/-- C1 counterexample: on the Windows backend, the native creation call
issued by `createWindow` passes `CW_USEDEFAULT` for the width and
height — not the requested pixel size.  For a request of 640×480 the
width handed to `CreateWindowExW` is `CW_USEDEFAULT ≠ 640`, so the
claim "on every platform backend, the width and height passed to
new-window are the width and height given to the native
window-creation call" is false. -/
theorem newWindow_size_counterexample :
    (createWindow true).1.head? = some (GdiCall.createWindowExW 0 WS_OVERLAPPEDWINDOW
      CW_USEDEFAULT CW_USEDEFAULT CW_USEDEFAULT CW_USEDEFAULT)
    ∧ CW_USEDEFAULT ≠ (640 : Int) := by
  constructor
  · rfl
  · decide

/-- C1 (amended): on the X11 backend, `doNewWindow(w, h)` passes
exactly the requested `w` and `h` to `XCreateWindow`; on the Windows
backend, `createWindow` takes no size and always passes
`CW_USEDEFAULT` for the position and size of `CreateWindowExW`,
whether or not the creation succeeds. -/
theorem newWindow_size_amended (rootWin : Nat) (w h : Int) (win : Nat) :
    (doNewWindowTrace rootWin w h win).head? =
      some (XCall.xCreateWindow rootWin 0 0 w h 0 newWindowEventMask)
    ∧ (∀ createOk : Bool, (createWindow createOk).1.head? =
        some (GdiCall.createWindowExW 0 WS_OVERLAPPEDWINDOW
          CW_USEDEFAULT CW_USEDEFAULT CW_USEDEFAULT CW_USEDEFAULT)) := by
  constructor
  · rfl
  · intro createOk
    cases createOk <;> rfl

/-! ### C2: visibility after new-window -/

/-- C2 counterexample: on the Windows backend, a successful
`createWindow` itself issues `ShowWindow(hwnd, SW_SHOWDEFAULT)` — a
native show call — before returning, so the claim "no map/show native
call has been issued by new-window on any backend" is false. -/
theorem newWindow_not_visible_counterexample :
    GdiCall.showWindow SW_SHOWDEFAULT ∈ (createWindow true).1 := by
  decide

/-- C2 (amended): on the X11 backend, `doNewWindow` issues no
`XMapWindow` call and no `eglCreateWindowSurface` call, so the window
is not yet visible; on the Windows backend, a successful
`createWindow` issues exactly one `ShowWindow` call, making the window
visible immediately. -/
theorem newWindow_visibility_amended (rootWin : Nat) (w h : Int) (win : Nat) :
    countMapCalls (doNewWindowTrace rootWin w h win) = 0
    ∧ countSurfaceCalls (doNewWindowTrace rootWin w h win) = 0
    ∧ countShowCalls (createWindow true).1 = 1 := by
  refine ⟨rfl, rfl, rfl⟩

/-! ### C3: idempotence of show-window -/

/-- C3 counterexample: each `doShowWindow` call issues one
`eglCreateWindowSurface` call, so two consecutive shows of window 5
issue two surface creations — the repeated show does create another
surface, and is not a no-op. -/
theorem show_idempotent_counterexample :
    countSurfaceCalls (doShowWindowTrace 5) = 1
    ∧ countSurfaceCalls (doShowWindowTrace 5 ++ doShowWindowTrace 5) = 2 := by
  decide

/-- C3 (amended): `doShowWindow` is not idempotent from the shown
state: every call, first or repeated, issues one `XMapWindow` and one
`eglCreateWindowSurface` call, so `n` shows of the same window create
`n` EGL window surfaces (the surface is created at every show, not
lazily at the first one). -/
theorem show_creates_surface_every_time (id n : Nat) :
    doShowWindowTrace id = [XCall.xMapWindow id, XCall.eglCreateWindowSurfaceCall id]
    ∧ countSurfaceCalls (showTimesTrace id n) = n
    ∧ countMapCalls (showTimesTrace id n) = n := by
  refine ⟨rfl, ?_, ?_⟩ <;>
  · induction n with
    | zero => rfl
    | succ m ih =>
        simp only [showTimesTrace, List.replicate_succ, List.flatten_cons] at ih ⊢
        simp only [countSurfaceCalls, countMapCalls, List.countP_append] at ih ⊢
        simp [doShowWindowTrace, List.countP_cons, ih, Nat.add_comm]

/-! ### C4: one on-expose per expose burst -/

theorem processEvents_exposeBurst (w : Nat) :
    ∀ counts : List Nat, counts.Chain' (fun a b => b < a) → counts.getLast? = some 0 →
      processEvents (counts.map (XEvent.expose w)) = [Callback.onExpose w] := by
  intro counts
  induction counts with
  | nil => intro _ hlast; simp at hlast
  | cons c rest ih =>
      intro hchain hlast
      cases rest with
      | nil =>
          simp at hlast
          subst hlast
          rfl
      | cons d rest2 =>
          rw [List.chain'_cons] at hchain
          have hlast2 : (d :: rest2).getLast? = some 0 := by
            simpa [List.getLast?_cons_cons] using hlast
          have hc : c ≠ 0 := by omega
          have h1 : translateEvent (XEvent.expose w c) = [] := by
            simp [translateEvent, hc]
          simp only [List.map_cons, processEvents, h1, List.nil_append]
          exact ih hchain.2 hlast2

/-- C4: for every X11 expose burst (a maximal run of `Expose` events
with strictly decreasing `count` ending at `count = 0`) on window `w`,
`processEvents` delivers exactly one `onExpose` callback; the callback
is triggered by the `count = 0` event, and an `Expose` event with
`count ≠ 0` produces no callback at all. -/
theorem expose_burst_single_callback (w : Nat) (counts : List Nat)
    (h : IsExposeBurst counts) :
    processEvents (counts.map (XEvent.expose w)) = [Callback.onExpose w]
    ∧ translateEvent (XEvent.expose w 0) = [Callback.onExpose w]
    ∧ (∀ c, c ≠ 0 → translateEvent (XEvent.expose w c) = []) := by
  refine ⟨processEvents_exposeBurst w counts h.2.1 h.2.2, rfl, ?_⟩
  intro c hc
  simp [translateEvent, hc]

/-- C4 witness: the burst with counts 2, 1, 0 on window 7 yields the
single callback `onExpose 7`. -/
theorem expose_burst_single_callback_witness :
    processEvents ([2, 1, 0].map (XEvent.expose 7)) = [Callback.onExpose 7] :=
  (expose_burst_single_callback 7 [2, 1, 0]
    ⟨by simp, by norm_num [List.chain'_cons], rfl⟩).1

/-! ### C5: WM_WINDOWPOSCHANGED and the SWP_NOSIZE bit -/

/-- C5: for every `WM_WINDOWPOSCHANGED` message, if the `SWP_NOSIZE`
bit of `WINDOWPOS.flags` is set, `windowWndProc` emits no event at all
(it falls through to `DefWindowProc`); if the bit is clear, it fetches
the window's client rectangle and emits exactly one size event
carrying those dimensions. -/
theorem windowposchanged_size_event (env : WndEnv) (hwnd : Nat) (wpFlags : Nat) :
    (wpFlags &&& SWP_NOSIZE ≠ 0 →
      (windowWndProc env hwnd (WinMsg.wmWindowPosChanged wpFlags)).1 = [])
    ∧ (wpFlags &&& SWP_NOSIZE = 0 →
      (windowWndProc env hwnd (WinMsg.wmWindowPosChanged wpFlags)).1 =
        [HostCall.sendSizeEvent hwnd (env.clientRect hwnd)]) := by
  constructor
  · intro h
    simp [windowWndProc, h]
  · intro h
    simp [windowWndProc, h]

/-- C5 witness: with a 640×480 client rectangle, a
`WM_WINDOWPOSCHANGED` with `SWP_NOSIZE` set emits nothing, and one
with the bit clear emits the single size event with that rectangle. -/
theorem windowposchanged_size_event_witness :
    (windowWndProc wndEnv0 3 (WinMsg.wmWindowPosChanged SWP_NOSIZE)).1 = []
    ∧ (windowWndProc wndEnv0 3 (WinMsg.wmWindowPosChanged 0)).1 =
        [HostCall.sendSizeEvent 3 ⟨0, 0, 640, 480⟩] :=
  ⟨(windowposchanged_size_event wndEnv0 3 SWP_NOSIZE).1 (by decide),
   (windowposchanged_size_event wndEnv0 3 0).2 (by decide)⟩

/-! ### C10: processEvents is a per-event translation drain -/

/-- C10: `processEvents` drains exactly the pending queue, producing
the concatenation of each event's translation in order; each consumed
event produces at most one host callback, and an event whose type is
not `ButtonPress`, `ButtonRelease`, `MotionNotify`, `Expose` or
`ConfigureNotify` produces no callback at all. -/
theorem processEvents_drain (pending : List XEvent) :
    processEvents pending = pending.flatMap translateEvent
    ∧ (∀ ev, (translateEvent ev).length ≤ 1)
    ∧ (∀ ty, translateEvent (XEvent.other ty) = []) := by
  refine ⟨?_, ?_, fun _ => rfl⟩
  · induction pending with
    | nil => rfl
    | cons ev rest ih => simp [processEvents, ih]
  · intro ev
    cases ev <;> simp [translateEvent]
    split <;> simp

/-! ### C9: startDriver reports the failing sub-step -/

/-- C9: `startDriver` returns without an error report exactly when all
nine checked sub-steps succeed; and whenever it is fatal, the reported
sub-step really is one that failed (each possible report implies the
corresponding native call failed). -/
theorem startDriver_fatal_reporting (env : StartEnv) :
    (startDriver env = StartResult.ok ↔ allStepsOk env = true)
    ∧ (startDriver env = StartResult.fatal StartStep.stepXOpenDisplay →
        env.xOpenDisplayOk = false)
    ∧ (startDriver env = StartResult.fatal StartStep.stepEglGetDisplay →
        env.eglGetDisplayOk = false)
    ∧ (startDriver env = StartResult.fatal StartStep.stepEglInit →
        env.eglInitOk = false)
    ∧ (startDriver env = StartResult.fatal StartStep.stepEglBindAPI →
        env.eglBindAPIOk = false)
    ∧ (startDriver env = StartResult.fatal StartStep.stepEglChooseConfig →
        env.eglChooseConfigOk = false)
    ∧ (startDriver env = StartResult.fatal StartStep.stepEglGetConfigAttrib →
        env.eglGetConfigAttribOk = false)
    ∧ (startDriver env = StartResult.fatal StartStep.stepXGetVisualInfo →
        env.xGetVisualInfoOk = false)
    ∧ (startDriver env = StartResult.fatal StartStep.stepXCreateColormap →
        env.xCreateColormapOk = false)
    ∧ (startDriver env = StartResult.fatal StartStep.stepEglCreateContext →
        env.eglCreateContextOk = false) := by
  obtain ⟨a, b, c, d, e, f, g, h, i⟩ := env
  cases a <;> cases b <;> cases c <;> cases d <;> cases e <;>
    cases f <;> cases g <;> cases h <;> cases i <;> decide

/-- C9 witness: with every sub-step succeeding, `startDriver` reports
no error; with `eglBindAPI` failing, the reported step really is the
`eglBindAPI` sub-step's failure. -/
theorem startDriver_fatal_reporting_witness :
    startDriver envAllOk = StartResult.ok ∧ envBindFail.eglBindAPIOk = false :=
  ⟨(startDriver_fatal_reporting envAllOk).1.mpr (by decide),
   (startDriver_fatal_reporting envBindFail).2.2.2.2.1 (by decide)⟩

/-! ### C6: fillSrc drops alpha and paints the opaque RGB -/

/-- C6: `fillSrc(handle, r, 0xAARRGGBB)` drops the alpha byte,
converts the remaining channels to the platform's `0x00BBGGRR` solid
colour (blue byte high, red byte low, alpha byte zero), and sets every
pixel inside `r` to the opaque colour (R, G, B), for every value of
the alpha byte `AA`. -/
theorem fillSrc_opaque_rgb (screen : Screen) (rect : RECT) (c : Nat) (x y : Int)
    (hin : inRect rect x y = true) :
    fillSrc screen rect c (x, y) =
      { red := c / 65536 % 256, green := c / 256 % 256, blue := c % 256 }
    ∧ colorrefOfARGB c =
        (c % 256) * 65536 + (c / 256 % 256) * 256 + (c / 65536 % 256)
    ∧ (∀ aa, fillSrc screen rect (aa * 16777216 + c % 16777216) (x, y) =
        fillSrc screen rect c (x, y)) := by
  refine ⟨?_, colorref_arith c, ?_⟩
  · simp only [fillSrc, hin, if_true]
    exact pixelOf_colorrefOfARGB c
  · intro aa
    simp only [fillSrc, hin, if_true]
    rw [pixelOf_colorrefOfARGB, pixelOf_colorrefOfARGB]
    simp only [Pixel.mk.injEq]
    refine ⟨by omega, by omega, by omega⟩

/-- C6 witness: filling the 2×2 rectangle at the origin with
`0x80FF0000` (half-transparent red) paints pure opaque red, and the
`COLORREF` built from it is `0x0000FF`. -/
theorem fillSrc_opaque_rgb_witness :
    fillSrc fillScreen0 fillRect2 0x80FF0000 (0, 0) = ⟨255, 0, 0⟩
    ∧ colorrefOfARGB 0x80FF0000 = 255 := by
  have h := fillSrc_opaque_rgb fillScreen0 fillRect2 0x80FF0000 0 0 (by decide)
  exact ⟨by rw [h.1], by rw [h.2.1]⟩

/-! ### C7: fillOver at alpha 255 equals fillSrc -/

/-- C7: for a colour whose alpha byte is 255 (`0xFFRRGGBB`,
pre-multiplied, so the channels are the straight RGB), `fillOver`
produces the same destination pixel as `fillSrc` at every coordinate:
inside the rectangle the per-pixel blend with source alpha 255
contributes the source channels exactly, outside it both leave the
destination untouched. -/
theorem fillOver_alpha255_eq_fillSrc (screen : Screen) (rect : RECT) (c : Nat)
    (x y : Int) (ha : (c >>> 24) &&& 0xFF = 255) :
    fillOver screen rect c (x, y) = fillSrc screen rect c (x, y) := by
  simp only [fillOver, blend, fillSrc]
  cases hin : inRect rect x y
  · simp
  · simp only [if_true]
    rw [pixelOf_colorrefOfARGB]
    unfold alphaBlendPixel
    rw [ha]
    rw [alpha255_channel _ _ (by rw [shr_and255]; omega)]
    rw [alpha255_channel _ _ (by rw [shr_and255]; omega)]
    rw [alpha255_channel _ _ (by rw [and255_eq_mod]; omega)]
    rw [shr_and255, shr_and255, and255_eq_mod]
    norm_num

/-- C7 witness: at full alpha, `fillOver` and `fillSrc` agree at a
point inside the rectangle. -/
theorem fillOver_alpha255_eq_fillSrc_witness :
    fillOver fillScreen0 fillRect2 0xFFFF8040 (0, 0) =
      fillSrc fillScreen0 fillRect2 0xFFFF8040 (0, 0) :=
  fillOver_alpha255_eq_fillSrc fillScreen0 fillRect2 0xFFFF8040 0 0 (by decide)

/-! ### C8: fillOver at alpha 0 -/

/-- C8 counterexample: with alpha 0 but non-zero colour channels
(`0x00FF0000`, which is *not* a valid pre-multiplied colour), the
per-pixel blend `dst = src + dst * (255 - 0) / 255` adds the source
channels to the destination: on a black destination the pixel inside
the rectangle becomes red, so "fill-over with 0x00RRGGBB for any
RR/GG/BB leaves every destination pixel unchanged" is false. -/
theorem fillOver_alpha0_counterexample :
    fillOver fillScreen0 fillRect2 0x00FF0000 (0, 0) ≠ fillScreen0 (0, 0) := by
  decide

theorem alphaBlend_zero (d : Pixel) (hr : d.red ≤ 255) (hg : d.green ≤ 255)
    (hb : d.blue ≤ 255) : alphaBlendPixel 0 d = d := by
  obtain ⟨r0, g0, b0⟩ := d
  have hr0 : r0 ≤ 255 := hr
  have hg0 : g0 ≤ 255 := hg
  have hb0 : b0 ≤ 255 := hb
  simp only [alphaBlendPixel, alphaBlendChannel, Pixel.mk.injEq,
    Nat.zero_shiftRight, Nat.zero_and]
  refine ⟨by omega, by omega, by omega⟩

/-- C8 (amended): for alpha 0 and validly pre-multiplied channels —
which forces R = G = B = 0, i.e. the colour `0x00000000` — `fillOver`
leaves every destination pixel (with 8-bit channels) unchanged. -/
theorem fillOver_alpha0_premult_identity (screen : Screen) (rect : RECT) (x y : Int)
    (hr : (screen (x, y)).red ≤ 255) (hg : (screen (x, y)).green ≤ 255)
    (hb : (screen (x, y)).blue ≤ 255) :
    fillOver screen rect 0 (x, y) = screen (x, y) := by
  simp only [fillOver, blend]
  cases hin : inRect rect x y
  · simp
  · simp only [if_true]
    exact alphaBlend_zero _ hr hg hb

/-- C8 witness: blending `0x00000000` over a non-black pixel inside
the rectangle leaves it unchanged. -/
theorem fillOver_alpha0_premult_identity_witness :
    fillOver fillScreenC fillRect2 0 (0, 0) = fillScreenC (0, 0) :=
  fillOver_alpha0_premult_identity fillScreenC fillRect2 0 0
    (by decide) (by decide) (by decide)
